import Mathlib

/-!
Verification of the NNPACK operator bridge in
`caffe2/contrib/nnpack/nnpack_ops.cc`: string-to-enum parameter
translation, per-call shape validation, construction-time feature checks,
geometry-descriptor construction, kernel dispatch, and the shared thread
pool.  Tensors are modelled by their shape (a list of dimensions); the
external NNPACK entry points are modelled by a status oracle, and a run of
an operator is recorded as a trace: the list of external kernel calls made,
the shape the output tensor was resized to (if any), and the final result
(success or an enforcement error).
-/

namespace Caffe2

/-- Storage orders of the surrounding framework; the operators only accept
channel-first layout. -/
inductive StorageOrder where
  | NHWC
  | NCHW
deriving DecidableEq

/-- NNPACK convolution algorithm enumeration (from nnpack.h). -/
inductive nnp_convolution_algorithm where
  | auto
  | ft8x8
  | ft16x16
  | wt8x8
deriving DecidableEq

/-- NNPACK kernel-transform strategy enumeration (from nnpack.h). -/
inductive nnp_convolution_transform_strategy where
  | block_based
  | tuple_based
deriving DecidableEq

/-- NNPACK status: success, or any failure code. -/
inductive nnp_status where
  | success
  | failure
deriving DecidableEq

/-- The nnp_size struct: a width and a height, in that field order. -/
structure nnp_size where
  width : Nat
  height : Nat
deriving DecidableEq

/-- The nnp_padding struct: top, right, bottom, left, in that field order. -/
structure nnp_padding where
  top : Nat
  right : Nat
  bottom : Nat
  left : Nat
deriving DecidableEq

/-- A tensor, modelled by its shape only; the float payload is owned by the
framework and never inspected by this bridge layer. -/
structure Tensor where
  dims : List Nat
deriving DecidableEq

/-- Number of dimensions, as in TensorCPU::ndim(). -/
def Tensor.ndim (t : Tensor) : Nat := t.dims.length

/-- The i-th dimension, as in TensorCPU::dim32(i) (in-bounds accesses only
are exercised; out of bounds is modelled as 0). -/
def Tensor.dim32 (t : Tensor) (i : Nat) : Nat := t.dims.getD i 0

/-- Geometry configuration inherited from ConvPoolOpBase: kernel, stride
and padding fields, in the names of the source. -/
structure ConvPoolGeom where
  kernel_h_ : Nat
  kernel_w_ : Nat
  stride_h_ : Nat
  stride_w_ : Nat
  pad_t_ : Nat
  pad_b_ : Nat
  pad_l_ : Nat
  pad_r_ : Nat
deriving DecidableEq

/-- An OperatorDef as far as these two operators read it: the storage
order, the two string arguments of the convolution operator, and the
inherited geometry. -/
structure OperatorDef where
  order_ : StorageOrder
  algo : String
  kts : String
  geom : ConvPoolGeom
deriving DecidableEq

/-- get_nnp_convolution_algorithm (nnpack_ops.cc lines 17-32): exact,
case-sensitive string match with a silent default of auto. -/
def get_nnp_convolution_algorithm (algo : String) :
    nnp_convolution_algorithm :=
  if algo = "AUTO" then nnp_convolution_algorithm.auto
  else if algo = "WINOGRAD" then nnp_convolution_algorithm.wt8x8
  else if algo = "FT16" then nnp_convolution_algorithm.ft16x16
  else if algo = "FT8" then nnp_convolution_algorithm.ft8x8
  else nnp_convolution_algorithm.auto

/-- get_nnp_convolution_transform_strategy (nnpack_ops.cc lines 34-43):
exact, case-sensitive string match with a silent default of block_based. -/
def get_nnp_convolution_transform_strategy (kts : String) :
    nnp_convolution_transform_strategy :=
  if kts = "BLOCK" then nnp_convolution_transform_strategy.block_based
  else if kts = "TUPLE" then nnp_convolution_transform_strategy.tuple_based
  else nnp_convolution_transform_strategy.block_based

/-- True exactly when the Except value is an error. -/
def exceptFailed {α : Type} : Except String α → Bool
  | Except.error _ => true
  | Except.ok _ => false

/-- The constructed convolution operator state: translated algorithm and
strategy plus the inherited geometry. -/
structure NNPACKConvOp extends ConvPoolGeom where
  algo_ : nnp_convolution_algorithm
  kts_ : nnp_convolution_transform_strategy
deriving DecidableEq

/-- NNPACKConvOp constructor (nnpack_ops.cc lines 69-79): translates the
algo and kts string arguments and requires NCHW order
(OPERATOR_NEEDS_FEATURE), failing construction otherwise. -/
def NNPACKConvOp.construct (d : OperatorDef) : Except String NNPACKConvOp :=
  if d.order_ = StorageOrder.NCHW then
    Except.ok
      { toConvPoolGeom := d.geom
        algo_ := get_nnp_convolution_algorithm d.algo
        kts_ := get_nnp_convolution_transform_strategy d.kts }
  else
    Except.error "NNPack only supports NCHW order."

/-- The constructed max-pooling operator state (only inherited geometry). -/
structure NNPACKMaxPoolOp extends ConvPoolGeom where
deriving DecidableEq

/-- NNPACKMaxPoolOp constructor (nnpack_ops.cc lines 177-203): requires,
in source order, NCHW order, kernel 2x2, stride 2x2, and all four paddings
zero (each an OPERATOR_NEEDS_FEATURE), failing construction otherwise. -/
def NNPACKMaxPoolOp.construct (d : OperatorDef) :
    Except String NNPACKMaxPoolOp :=
  if d.order_ = StorageOrder.NCHW then
    if d.geom.kernel_h_ = 2 then
      if d.geom.kernel_w_ = 2 then
        if d.geom.stride_h_ = 2 then
          if d.geom.stride_w_ = 2 then
            if d.geom.pad_t_ = 0 then
              if d.geom.pad_l_ = 0 then
                if d.geom.pad_r_ = 0 then
                  if d.geom.pad_b_ = 0 then
                    Except.ok { toConvPoolGeom := d.geom }
                  else Except.error "NNPack Pooling differs when pad > 0"
                else Except.error "NNPack Pooling differs when pad > 0"
              else Except.error "NNPack Pooling differs when pad > 0"
            else Except.error "NNPack Pooling differs when pad > 0"
          else Except.error "NNPack only supports MaxPool stride size 2*2"
        else Except.error "NNPack only supports MaxPool stride size 2*2"
      else Except.error "NNPack only supports MaxPool kernel size 2*2"
    else Except.error "NNPack only supports MaxPool kernel size 2*2"
  else
    Except.error "NNPack only supports NCHW order."

/-- One external NNPACK kernel call, with every argument that is derived
from shapes or configuration (data pointers and the thread pool are not
recorded). Field order follows the source call sites. -/
inductive KernelCall where
  | convInference
      (algo : nnp_convolution_algorithm)
      (kts : nnp_convolution_transform_strategy)
      (input_channels output_channels : Nat)
      (input_size : nnp_size)
      (padding : nnp_padding)
      (kernel_size : nnp_size)
      (output_subsample : nnp_size)
  | convOutput
      (algo : nnp_convolution_algorithm)
      (batch_size input_channels output_channels : Nat)
      (input_size : nnp_size)
      (padding : nnp_padding)
      (kernel_size : nnp_size)
  | maxPooling
      (batch_size input_channels : Nat)
      (input_size : nnp_size)
      (padding : nnp_padding)
      (pooling_size : nnp_size)
      (pooling_stride : nnp_size)
deriving DecidableEq

deriving instance DecidableEq for Except

/-- The observable trace of one operator invocation: external kernel calls
made, the shape the output tensor was resized to (none if SetOutputSize
was never reached), and the returned result or enforcement error. -/
structure RunTrace where
  calls : List KernelCall
  Ydims : Option (List Nat)
  result : Except String Bool
deriving DecidableEq

/-- Modelled from the spec: ConvPoolOpBase::SetOutputSize is not part of
this file; per the spec the output is shaped by the standard output-shape
convention: batch copied from the input, channel count given by the
caller (output_channel), and each spatial dimension computed from kernel,
stride and padding by the standard convolution arithmetic. -/
def SetOutputSize (g : ConvPoolGeom) (X : Tensor) (output_channel : Nat) :
    Tensor :=
  { dims := [X.dim32 0, output_channel,
             (X.dim32 2 + g.pad_t_ + g.pad_b_ - g.kernel_h_) / g.stride_h_ + 1,
             (X.dim32 3 + g.pad_l_ + g.pad_r_ - g.kernel_w_) / g.stride_w_ + 1] }

/-- The pads vector as built at nnpack_ops.cc lines 112-113 and 225-226:
top, bottom, left, right. -/
def padsVec (g : ConvPoolGeom) : List Nat :=
  [g.pad_t_, g.pad_b_, g.pad_l_, g.pad_r_]

/-- The stride vector as built at lines 114 and 227: height, width. -/
def strideVec (g : ConvPoolGeom) : List Nat :=
  [g.stride_h_, g.stride_w_]

/-- The nnp_padding built at lines 125-128 and 239-242 from the tblr pads
vector: top = pads[0], right = pads[3], bottom = pads[1], left = pads[2]. -/
def nnpPaddingOf (g : ConvPoolGeom) : nnp_padding :=
  { top := (padsVec g).getD 0 0
    right := (padsVec g).getD 3 0
    bottom := (padsVec g).getD 1 0
    left := (padsVec g).getD 2 0 }

/-- The input_size struct (lines 119-120, 233-234): width = dim 3,
height = dim 2. -/
def inputSizeOf (X : Tensor) : nnp_size :=
  { width := X.dim32 3, height := X.dim32 2 }

/-- The kernel_size struct (lines 122-123): width = filter dim 3,
height = filter dim 2 (filter is MCHW). -/
def kernelSizeOf (filter : Tensor) : nnp_size :=
  { width := filter.dim32 3, height := filter.dim32 2 }

/-- The output_subsample struct (lines 130-131): width = stride[1],
height = stride[0]. -/
def outputSubsampleOf (g : ConvPoolGeom) : nnp_size :=
  { width := (strideVec g).getD 1 0, height := (strideVec g).getD 0 0 }

/-- The nnp_convolution_inference call as assembled at lines 134-148. -/
def convInferenceCall (op : NNPACKConvOp) (X filter Y : Tensor) : KernelCall :=
  KernelCall.convInference op.algo_ op.kts_ (X.dim32 1) (Y.dim32 1)
    (inputSizeOf X) (nnpPaddingOf op.toConvPoolGeom) (kernelSizeOf filter)
    (outputSubsampleOf op.toConvPoolGeom)

/-- The nnp_convolution_output call as assembled at lines 152-165. -/
def convOutputCall (op : NNPACKConvOp) (X filter Y : Tensor) : KernelCall :=
  KernelCall.convOutput op.algo_ (X.dim32 0) (X.dim32 1) (Y.dim32 1)
    (inputSizeOf X) (nnpPaddingOf op.toConvPoolGeom) (kernelSizeOf filter)

/-- The CAFFE_ENFORCE checks of lines 99-105, in source order; they all
carry an empty failure message, so their sequence is observationally one
conjunction.  Note the first: line 99 reads CAFFE_ENFORCE(filter.ndim(), 4),
which uses filter.ndim() itself as the enforced condition (an integer,
true when nonzero) and 4 as the failure-message argument, so it only
rejects a rank-0 filter, not a filter whose rank differs from 4. -/
def convShapeChecks (op : NNPACKConvOp) (X filter bias : Tensor) : Prop :=
  filter.ndim ≠ 0 ∧
  filter.dim32 1 = X.dim32 1 ∧
  filter.dim32 2 = op.kernel_h_ ∧
  filter.dim32 3 = op.kernel_w_ ∧
  bias.ndim = 1 ∧
  bias.dim32 0 = filter.dim32 0

instance (op : NNPACKConvOp) (X filter bias : Tensor) :
    Decidable (convShapeChecks op X filter bias) := by
  unfold convShapeChecks; infer_instance

/-- The batch/stride checks of lines 107-111: when the batch dimension
exceeds 1, both strides must be 1 (two CAFFE_ENFORCE with empty
messages, merged into one condition). -/
def convStrideViolation (op : NNPACKConvOp) (X : Tensor) : Prop :=
  X.dim32 0 > 1 ∧ (op.stride_h_ ≠ 1 ∨ op.stride_w_ ≠ 1)

instance (op : NNPACKConvOp) (X : Tensor) :
    Decidable (convStrideViolation op X) := by
  unfold convStrideViolation; infer_instance

/-- NNPACKConvOp::RunOnDeviceWithOrderNCHW (lines 92-169), as a trace:
the rank-4 input check of line 97 (its message is "Input dim should be 4"),
the shape checks of lines 99-105, then SetOutputSize (line 106, before the
batch/stride checks of lines 107-111), then dispatch by batch size to the
inference call (lines 134-148) or the batched call (lines 152-165), each
followed by a CAFFE_ENFORCE on its status.  The status oracle stands for
the external library. -/
def convRun (op : NNPACKConvOp) (X filter bias : Tensor)
    (status : KernelCall → nnp_status) : RunTrace :=
  if X.ndim = 4 then
    if convShapeChecks op X filter bias then
      if convStrideViolation op X then
        { calls := [],
          Ydims := some (SetOutputSize op.toConvPoolGeom X
            (filter.dim32 0)).dims,
          result := Except.error "" }
      else if X.dim32 0 = 1 then
        { calls := [convInferenceCall op X filter
            (SetOutputSize op.toConvPoolGeom X (filter.dim32 0))],
          Ydims := some (SetOutputSize op.toConvPoolGeom X
            (filter.dim32 0)).dims,
          result := if status (convInferenceCall op X filter
              (SetOutputSize op.toConvPoolGeom X (filter.dim32 0))) =
                nnp_status.success then
              Except.ok true
            else Except.error "" }
      else
        { calls := [convOutputCall op X filter
            (SetOutputSize op.toConvPoolGeom X (filter.dim32 0))],
          Ydims := some (SetOutputSize op.toConvPoolGeom X
            (filter.dim32 0)).dims,
          result := if status (convOutputCall op X filter
              (SetOutputSize op.toConvPoolGeom X (filter.dim32 0))) =
                nnp_status.success then
              Except.ok true
            else Except.error "" }
    else { calls := [], Ydims := none, result := Except.error "" }
  else
    { calls := [], Ydims := none,
      result := Except.error "Input dim should be 4" }

/-- The pooling list as built at line 228: kernel height, kernel width. -/
def poolingVec (g : ConvPoolGeom) : List Nat :=
  [g.kernel_h_, g.kernel_w_]

/-- The pooling_size struct (lines 236-237): width = pooling[1],
height = pooling[0]. -/
def poolingSizeOf (g : ConvPoolGeom) : nnp_size :=
  { width := (poolingVec g).getD 1 0, height := (poolingVec g).getD 0 0 }

/-- The pooling_stride struct (lines 244-245): width = stride[1],
height = stride[0]. -/
def poolingStrideOf (g : ConvPoolGeom) : nnp_size :=
  { width := (strideVec g).getD 1 0, height := (strideVec g).getD 0 0 }

/-- The nnp_max_pooling_output call as assembled at lines 246-255. -/
def maxPoolCall (op : NNPACKMaxPoolOp) (X : Tensor) : KernelCall :=
  KernelCall.maxPooling (X.dim32 0) (X.dim32 1) (inputSizeOf X)
    (nnpPaddingOf op.toConvPoolGeom) (poolingSizeOf op.toConvPoolGeom)
    (poolingStrideOf op.toConvPoolGeom)

/-- NNPACKMaxPoolOp::RunOnDeviceWithOrderNCHW (lines 213-258), as a trace:
rank-4 and even height/width checks in source order, then SetOutputSize
with the input channel count, then the single pooling entry point with no
batch-size branching. -/
def maxPoolRun (op : NNPACKMaxPoolOp) (X : Tensor)
    (status : KernelCall → nnp_status) : RunTrace :=
  if X.ndim = 4 then
    if X.dim32 2 % 2 = 0 then
      if X.dim32 3 % 2 = 0 then
        let Y := SetOutputSize op.toConvPoolGeom X (X.dim32 1)
        let c := maxPoolCall op X
        { calls := [c], Ydims := some Y.dims,
          result := if status c = nnp_status.success then Except.ok true
            else Except.error "" }
      else { calls := [], Ydims := none, result := Except.error "" }
    else { calls := [], Ydims := none, result := Except.error "" }
  else { calls := [], Ydims := none, result := Except.error "" }

/-- A pool handle, as created by pthreadpool_create(threads); two pools
created with the same thread count are still distinct instances, so the
handle carries a creation identifier. -/
structure PThreadPool where
  id : Nat
  threads : Nat
deriving DecidableEq

/-- The outcome of one nnpack_threadpool() call: the returned pool, the
process-wide static pointer afterwards, and whether nnp_initialize and
pthreadpool_create ran during this call. -/
structure ThreadpoolCall where
  pool : PThreadPool
  state : Option PThreadPool
  didInit : Bool
  didCreate : Bool
deriving DecidableEq

/-- nnpack_threadpool (nnpack_ops.cc lines 49-60), with the static pointer
threaded explicitly: on a nil pointer it runs nnp_initialize (enforcing
success), creates a pool sized to mkl_get_max_threads() (the environment
is modelled by the init status, the thread count, and a fresh identifier
for the created pool), and stores it; on a non-nil pointer it returns the
stored pool untouched.  No path clears or replaces a non-nil pointer. -/
def nnpack_threadpool (st : Option PThreadPool) (initStatus : nnp_status)
    (mklMaxThreads freshId : Nat) : Except String ThreadpoolCall :=
  match st with
  | some p =>
      Except.ok { pool := p, state := some p,
                  didInit := false, didCreate := false }
  | none =>
      if initStatus = nnp_status.success then
        Except.ok { pool := { id := freshId, threads := mklMaxThreads },
                    state := some { id := freshId, threads := mklMaxThreads },
                    didInit := true, didCreate := true }
      else
        Except.error "NNPack is not supported here!"

/-- Validation of one convolution call: the rank-4 input check, the shape
checks of lines 99-105, and absence of the batch/stride violation. -/
def convValid (op : NNPACKConvOp) (X filter bias : Tensor) : Prop :=
  X.ndim = 4 ∧ convShapeChecks op X filter bias ∧ ¬ convStrideViolation op X

instance (op : NNPACKConvOp) (X filter bias : Tensor) :
    Decidable (convValid op X filter bias) := by
  unfold convValid; infer_instance

/-- A convolution operator with 2x2 kernel, stride 1 and no padding, used
as a concrete configuration in witnesses. -/
def stdConvOp : NNPACKConvOp :=
  { kernel_h_ := 2, kernel_w_ := 2, stride_h_ := 1, stride_w_ := 1,
    pad_t_ := 0, pad_b_ := 0, pad_l_ := 0, pad_r_ := 0,
    algo_ := nnp_convolution_algorithm.auto,
    kts_ := nnp_convolution_transform_strategy.tuple_based }

/-- A max-pooling operator with the only accepted configuration: 2x2
kernel, stride 2, no padding. -/
def stdPoolOp : NNPACKMaxPoolOp :=
  { kernel_h_ := 2, kernel_w_ := 2, stride_h_ := 2, stride_w_ := 2,
    pad_t_ := 0, pad_b_ := 0, pad_l_ := 0, pad_r_ := 0 }

/-- A status oracle under which every external kernel call succeeds. -/
def allSuccess : KernelCall → nnp_status := fun _ => nnp_status.success

/-- C5: get_nnp_convolution_algorithm maps "AUTO", "WINOGRAD", "FT16",
"FT8" to auto, wt8x8, ft16x16, ft8x8 and every other string to auto;
get_nnp_convolution_transform_strategy maps "BLOCK" and "TUPLE" to
block_based and tuple_based and every other string to block_based.  The
match is exact and case-sensitive, and both functions are total (they are
plain Lean functions, so they never fail). -/
theorem c5_parameter_translators :
    (get_nnp_convolution_algorithm "AUTO" = nnp_convolution_algorithm.auto ∧
     get_nnp_convolution_algorithm "WINOGRAD" =
       nnp_convolution_algorithm.wt8x8 ∧
     get_nnp_convolution_algorithm "FT16" =
       nnp_convolution_algorithm.ft16x16 ∧
     get_nnp_convolution_algorithm "FT8" =
       nnp_convolution_algorithm.ft8x8) ∧
    (∀ s : String, s ≠ "AUTO" → s ≠ "WINOGRAD" → s ≠ "FT16" → s ≠ "FT8" →
      get_nnp_convolution_algorithm s = nnp_convolution_algorithm.auto) ∧
    (get_nnp_convolution_transform_strategy "BLOCK" =
       nnp_convolution_transform_strategy.block_based ∧
     get_nnp_convolution_transform_strategy "TUPLE" =
       nnp_convolution_transform_strategy.tuple_based) ∧
    (∀ s : String, s ≠ "BLOCK" → s ≠ "TUPLE" →
      get_nnp_convolution_transform_strategy s =
        nnp_convolution_transform_strategy.block_based) := by
  refine ⟨⟨rfl, rfl, rfl, rfl⟩, ?_, ⟨rfl, rfl⟩, ?_⟩
  · intro s h1 h2 h3 h4
    unfold get_nnp_convolution_algorithm
    rw [if_neg h1, if_neg h2, if_neg h3, if_neg h4]
  · intro s h1 h2
    unfold get_nnp_convolution_transform_strategy
    rw [if_neg h1, if_neg h2]

/-- Witness for C5 at the unknown, case-differing strings "auto" and
"tuple". -/
theorem c5_parameter_translators_witness :
    get_nnp_convolution_algorithm "auto" = nnp_convolution_algorithm.auto ∧
    get_nnp_convolution_transform_strategy "tuple" =
      nnp_convolution_transform_strategy.block_based :=
  ⟨c5_parameter_translators.2.1 "auto" (by decide) (by decide) (by decide)
      (by decide),
   c5_parameter_translators.2.2.2 "tuple" (by decide) (by decide)⟩

/-- C1 (refuting evaluation): the filter-rank check at line 99,
CAFFE_ENFORCE(filter.ndim(), 4), enforces only that the rank is nonzero,
so a rank-5 filter of shape 1x1x2x2x1 passes every per-call check and the
external kernel is invoked, contradicting the claim that every filter
whose rank differs from 4 is rejected before the kernel runs. -/
theorem c1_rank5_filter_reaches_kernel :
    (Tensor.mk [1, 1, 2, 2, 1]).ndim = 5 ∧
    (convRun stdConvOp (Tensor.mk [1, 1, 4, 4]) (Tensor.mk [1, 1, 2, 2, 1])
        (Tensor.mk [1]) allSuccess).calls.length = 1 ∧
    (convRun stdConvOp (Tensor.mk [1, 1, 4, 4]) (Tensor.mk [1, 1, 2, 2, 1])
        (Tensor.mk [1]) allSuccess).result = Except.ok true := by
  refine ⟨rfl, rfl, rfl⟩

/-- C2: every kernel call emitted by a convolution run carries the
geometry descriptors of lines 112-131: padding top/right/bottom/left equal
the configured pad_t/pad_r/pad_b/pad_l (the correct permutation of the
stored top/bottom/left/right pads vector), input_size is (width = input
dim 3, height = input dim 2), kernel_size is (width = filter dim 3,
height = filter dim 2), and, on the inference path, output_subsample is
(width = stride_w, height = stride_h). -/
theorem c2_geometry_descriptors (op : NNPACKConvOp) (X filter bias : Tensor)
    (status : KernelCall → nnp_status) :
    (∀ a k ic oc is pad ks ss,
        KernelCall.convInference a k ic oc is pad ks ss ∈
          (convRun op X filter bias status).calls →
        pad = { top := op.pad_t_, right := op.pad_r_,
                bottom := op.pad_b_, left := op.pad_l_ } ∧
        is = { width := X.dim32 3, height := X.dim32 2 } ∧
        ks = { width := filter.dim32 3, height := filter.dim32 2 } ∧
        ss = { width := op.stride_w_, height := op.stride_h_ }) ∧
    (∀ a b ic oc is pad ks,
        KernelCall.convOutput a b ic oc is pad ks ∈
          (convRun op X filter bias status).calls →
        pad = { top := op.pad_t_, right := op.pad_r_,
                bottom := op.pad_b_, left := op.pad_l_ } ∧
        is = { width := X.dim32 3, height := X.dim32 2 } ∧
        ks = { width := filter.dim32 3, height := filter.dim32 2 }) := by
  constructor
  · intro a k ic oc is pad ks ss h
    unfold convRun at h
    repeat' split at h
    all_goals simp only [List.not_mem_nil, List.mem_singleton] at h
    all_goals simp [convInferenceCall, convOutputCall] at h
    all_goals
      obtain ⟨-, -, -, -, h1, h2, h3, h4⟩ := h
      subst h1; subst h2; subst h3; subst h4
      simp [nnpPaddingOf, padsVec, inputSizeOf, kernelSizeOf,
        outputSubsampleOf, strideVec]
  · intro a b ic oc is pad ks h
    unfold convRun at h
    repeat' split at h
    all_goals simp only [List.not_mem_nil, List.mem_singleton] at h
    all_goals simp [convInferenceCall, convOutputCall] at h
    all_goals
      obtain ⟨-, -, -, -, h1, h2, h3⟩ := h
      subst h1; subst h2; subst h3
      simp [nnpPaddingOf, padsVec, inputSizeOf, kernelSizeOf,
        outputSubsampleOf, strideVec]

/-- Witness for C2 at a concrete asymmetric configuration (pads 1,2,3,4
for t,b,l,r; strides 1,1) and batch-1 input. -/
theorem c2_geometry_descriptors_witness :
    nnp_padding.mk 1 4 2 3 = { top := 1, right := 4, bottom := 2, left := 3 } ∧
    nnp_size.mk 5 6 = { width := 5, height := 6 } ∧
    nnp_size.mk 2 2 = { width := 2, height := 2 } ∧
    nnp_size.mk 1 1 = { width := 1, height := 1 } :=
  (c2_geometry_descriptors
    { kernel_h_ := 2, kernel_w_ := 2, stride_h_ := 1, stride_w_ := 1,
      pad_t_ := 1, pad_b_ := 2, pad_l_ := 3, pad_r_ := 4,
      algo_ := nnp_convolution_algorithm.auto,
      kts_ := nnp_convolution_transform_strategy.tuple_based }
    (Tensor.mk [1, 1, 6, 5]) (Tensor.mk [1, 1, 2, 2]) (Tensor.mk [1])
    allSuccess).1
    nnp_convolution_algorithm.auto
    nnp_convolution_transform_strategy.tuple_based
    1 1 (nnp_size.mk 5 6) (nnp_padding.mk 1 4 2 3) (nnp_size.mk 2 2)
    (nnp_size.mk 1 1) (by decide)

/-- C3: the convolution per-call validator rejects, with an enforcement
error and without any kernel call, each of: an input of rank other than
4; a filter whose channel dimension (dim 1) differs from the input's
channel dimension; a filter whose spatial dimensions (dims 2 and 3)
differ from the configured kernel height/width; a bias that is not rank 1
with length equal to the filter's dimension 0; and batch size > 1 with a
stride height or width other than 1. -/
theorem c3_conv_validator_rejects (op : NNPACKConvOp)
    (X filter bias : Tensor) (status : KernelCall → nnp_status) :
    (X.ndim ≠ 4 →
      exceptFailed (convRun op X filter bias status).result = true ∧
      (convRun op X filter bias status).calls = []) ∧
    (filter.dim32 1 ≠ X.dim32 1 →
      exceptFailed (convRun op X filter bias status).result = true ∧
      (convRun op X filter bias status).calls = []) ∧
    (filter.dim32 2 ≠ op.kernel_h_ ∨ filter.dim32 3 ≠ op.kernel_w_ →
      exceptFailed (convRun op X filter bias status).result = true ∧
      (convRun op X filter bias status).calls = []) ∧
    (bias.ndim ≠ 1 ∨ bias.dim32 0 ≠ filter.dim32 0 →
      exceptFailed (convRun op X filter bias status).result = true ∧
      (convRun op X filter bias status).calls = []) ∧
    (X.dim32 0 > 1 ∧ (op.stride_h_ ≠ 1 ∨ op.stride_w_ ≠ 1) →
      exceptFailed (convRun op X filter bias status).result = true ∧
      (convRun op X filter bias status).calls = []) := by
  refine ⟨?_, ?_, ?_, ?_, ?_⟩ <;>
    intro h <;>
    unfold convRun <;>
    split_ifs <;>
    simp_all [convShapeChecks, convStrideViolation, exceptFailed]

/-- Witness for C3: a rank-3 input, a channel-mismatched filter, a
kernel-mismatched filter, a rank-2 bias, and a batch-2 stride-2 run are
each rejected without a kernel call (stride case uses a stride-2 batch-2
configuration). -/
theorem c3_conv_validator_rejects_witness :
    (exceptFailed (convRun stdConvOp (Tensor.mk [1, 4, 4])
        (Tensor.mk [1, 1, 2, 2]) (Tensor.mk [1]) allSuccess).result = true ∧
      (convRun stdConvOp (Tensor.mk [1, 4, 4]) (Tensor.mk [1, 1, 2, 2])
        (Tensor.mk [1]) allSuccess).calls = []) ∧
    (exceptFailed (convRun stdConvOp (Tensor.mk [1, 1, 4, 4])
        (Tensor.mk [1, 3, 2, 2]) (Tensor.mk [1]) allSuccess).result = true ∧
      (convRun stdConvOp (Tensor.mk [1, 1, 4, 4]) (Tensor.mk [1, 3, 2, 2])
        (Tensor.mk [1]) allSuccess).calls = []) ∧
    (exceptFailed (convRun stdConvOp (Tensor.mk [1, 1, 4, 4])
        (Tensor.mk [1, 1, 3, 2]) (Tensor.mk [1]) allSuccess).result = true ∧
      (convRun stdConvOp (Tensor.mk [1, 1, 4, 4]) (Tensor.mk [1, 1, 3, 2])
        (Tensor.mk [1]) allSuccess).calls = []) ∧
    (exceptFailed (convRun stdConvOp (Tensor.mk [1, 1, 4, 4])
        (Tensor.mk [1, 1, 2, 2]) (Tensor.mk [1, 1]) allSuccess).result =
          true ∧
      (convRun stdConvOp (Tensor.mk [1, 1, 4, 4]) (Tensor.mk [1, 1, 2, 2])
        (Tensor.mk [1, 1]) allSuccess).calls = []) ∧
    (exceptFailed (convRun
        { stdConvOp with stride_h_ := 2, stride_w_ := 2 }
        (Tensor.mk [2, 1, 4, 4]) (Tensor.mk [1, 1, 2, 2]) (Tensor.mk [1])
        allSuccess).result = true ∧
      (convRun { stdConvOp with stride_h_ := 2, stride_w_ := 2 }
        (Tensor.mk [2, 1, 4, 4]) (Tensor.mk [1, 1, 2, 2]) (Tensor.mk [1])
        allSuccess).calls = []) :=
  ⟨(c3_conv_validator_rejects stdConvOp (Tensor.mk [1, 4, 4])
      (Tensor.mk [1, 1, 2, 2]) (Tensor.mk [1]) allSuccess).1 (by decide),
   (c3_conv_validator_rejects stdConvOp (Tensor.mk [1, 1, 4, 4])
      (Tensor.mk [1, 3, 2, 2]) (Tensor.mk [1]) allSuccess).2.1 (by decide),
   (c3_conv_validator_rejects stdConvOp (Tensor.mk [1, 1, 4, 4])
      (Tensor.mk [1, 1, 3, 2]) (Tensor.mk [1]) allSuccess).2.2.1
      (by decide),
   (c3_conv_validator_rejects stdConvOp (Tensor.mk [1, 1, 4, 4])
      (Tensor.mk [1, 1, 2, 2]) (Tensor.mk [1, 1]) allSuccess).2.2.2.1
      (by decide),
   (c3_conv_validator_rejects { stdConvOp with stride_h_ := 2, stride_w_ := 2 }
      (Tensor.mk [2, 1, 4, 4]) (Tensor.mk [1, 1, 2, 2]) (Tensor.mk [1])
      allSuccess).2.2.2.2 (by decide)⟩

/-- C4: a validated convolution invocation makes exactly one external
call: the inference entry point, carrying the configured algorithm and
transform strategy, when the batch dimension is 1, and the batched entry
point, carrying the algorithm but no transform strategy (the convOutput
constructor has no strategy argument), otherwise; the result is ok true
exactly when the status of that single call is success, and an
enforcement error otherwise. -/
theorem c4_single_dispatch (op : NNPACKConvOp) (X filter bias : Tensor)
    (status : KernelCall → nnp_status)
    (h : convValid op X filter bias) :
    (convRun op X filter bias status).calls =
      [if X.dim32 0 = 1 then
          convInferenceCall op X filter
            (SetOutputSize op.toConvPoolGeom X (filter.dim32 0))
        else
          convOutputCall op X filter
            (SetOutputSize op.toConvPoolGeom X (filter.dim32 0))] ∧
    (convRun op X filter bias status).result =
      (if status (if X.dim32 0 = 1 then
            convInferenceCall op X filter
              (SetOutputSize op.toConvPoolGeom X (filter.dim32 0))
          else
            convOutputCall op X filter
              (SetOutputSize op.toConvPoolGeom X (filter.dim32 0))) =
          nnp_status.success then
        Except.ok true
      else Except.error "") := by
  obtain ⟨h1, h2, h3⟩ := h
  unfold convRun
  rw [if_pos h1, if_pos h2, if_neg h3]
  by_cases hb : X.dim32 0 = 1 <;> simp [hb]

/-- Witness for C4 at a batch-1 input with an all-success oracle. -/
theorem c4_single_dispatch_witness :
    (convRun stdConvOp (Tensor.mk [1, 1, 4, 4]) (Tensor.mk [1, 1, 2, 2])
      (Tensor.mk [1]) allSuccess).calls.length = 1 ∧
    (convRun stdConvOp (Tensor.mk [1, 1, 4, 4]) (Tensor.mk [1, 1, 2, 2])
      (Tensor.mk [1]) allSuccess).result = Except.ok true := by
  have h := c4_single_dispatch stdConvOp (Tensor.mk [1, 1, 4, 4])
    (Tensor.mk [1, 1, 2, 2]) (Tensor.mk [1]) allSuccess (by decide)
  rw [h.1, h.2]
  exact ⟨rfl, rfl⟩

/-- C6: constructing either operator with a storage order other than NCHW
fails at construction, and constructing the max-pooling operator with a
kernel dimension other than 2, a stride dimension other than 2, or any
nonzero padding fails at construction; construction happens before any
tensor is processed (the construct functions take no tensors). -/
theorem c6_construction_checks (d : OperatorDef) :
    (d.order_ ≠ StorageOrder.NCHW →
      exceptFailed (NNPACKConvOp.construct d) = true ∧
      exceptFailed (NNPACKMaxPoolOp.construct d) = true) ∧
    (d.geom.kernel_h_ ≠ 2 ∨ d.geom.kernel_w_ ≠ 2 ∨
     d.geom.stride_h_ ≠ 2 ∨ d.geom.stride_w_ ≠ 2 ∨
     d.geom.pad_t_ ≠ 0 ∨ d.geom.pad_l_ ≠ 0 ∨
     d.geom.pad_r_ ≠ 0 ∨ d.geom.pad_b_ ≠ 0 →
      exceptFailed (NNPACKMaxPoolOp.construct d) = true) := by
  constructor
  · intro h
    unfold NNPACKConvOp.construct NNPACKMaxPoolOp.construct
    split_ifs <;> simp_all [exceptFailed]
  · intro h
    unfold NNPACKMaxPoolOp.construct
    split_ifs <;> simp_all [exceptFailed]

/-- Witness for C6: an NHWC definition fails both constructors, and a
kernel_h = 3 pooling definition fails the pooling constructor. -/
theorem c6_construction_checks_witness :
    (exceptFailed (NNPACKConvOp.construct
        { order_ := StorageOrder.NHWC, algo := "AUTO", kts := "TUPLE",
          geom := { kernel_h_ := 2, kernel_w_ := 2, stride_h_ := 2,
                    stride_w_ := 2, pad_t_ := 0, pad_b_ := 0, pad_l_ := 0,
                    pad_r_ := 0 } }) = true ∧
      exceptFailed (NNPACKMaxPoolOp.construct
        { order_ := StorageOrder.NHWC, algo := "AUTO", kts := "TUPLE",
          geom := { kernel_h_ := 2, kernel_w_ := 2, stride_h_ := 2,
                    stride_w_ := 2, pad_t_ := 0, pad_b_ := 0, pad_l_ := 0,
                    pad_r_ := 0 } }) = true) ∧
    exceptFailed (NNPACKMaxPoolOp.construct
      { order_ := StorageOrder.NCHW, algo := "AUTO", kts := "TUPLE",
        geom := { kernel_h_ := 3, kernel_w_ := 2, stride_h_ := 2,
                  stride_w_ := 2, pad_t_ := 0, pad_b_ := 0, pad_l_ := 0,
                  pad_r_ := 0 } }) = true :=
  ⟨(c6_construction_checks
      { order_ := StorageOrder.NHWC, algo := "AUTO", kts := "TUPLE",
        geom := { kernel_h_ := 2, kernel_w_ := 2, stride_h_ := 2,
                  stride_w_ := 2, pad_t_ := 0, pad_b_ := 0, pad_l_ := 0,
                  pad_r_ := 0 } }).1 (by decide),
   (c6_construction_checks
      { order_ := StorageOrder.NCHW, algo := "AUTO", kts := "TUPLE",
        geom := { kernel_h_ := 3, kernel_w_ := 2, stride_h_ := 2,
                  stride_w_ := 2, pad_t_ := 0, pad_b_ := 0, pad_l_ := 0,
                  pad_r_ := 0 } }).2 (by decide)⟩

/-- C7: a max-pooling invocation whose input has rank other than 4, odd
height (dim 2), or odd width (dim 3) fails with an enforcement error and
makes no kernel call; when all three conditions hold, the single pooling
entry point is invoked, whatever the batch size. -/
theorem c7_maxpool_preconditions (op : NNPACKMaxPoolOp) (X : Tensor)
    (status : KernelCall → nnp_status) :
    (X.ndim ≠ 4 ∨ X.dim32 2 % 2 ≠ 0 ∨ X.dim32 3 % 2 ≠ 0 →
      exceptFailed (maxPoolRun op X status).result = true ∧
      (maxPoolRun op X status).calls = []) ∧
    (X.ndim = 4 → X.dim32 2 % 2 = 0 → X.dim32 3 % 2 = 0 →
      (maxPoolRun op X status).calls = [maxPoolCall op X]) := by
  constructor
  · intro h
    unfold maxPoolRun
    split_ifs <;> simp_all [exceptFailed]
  · intro h1 h2 h3
    unfold maxPoolRun
    rw [if_pos h1, if_pos h2, if_pos h3]

/-- Witness for C7: a 1x1x3x4 input (odd height) is rejected with no
kernel call, and a batch-3 2x2x4x4 input goes straight to the single
pooling entry point. -/
theorem c7_maxpool_preconditions_witness :
    (exceptFailed (maxPoolRun stdPoolOp (Tensor.mk [1, 1, 3, 4])
        allSuccess).result = true ∧
      (maxPoolRun stdPoolOp (Tensor.mk [1, 1, 3, 4]) allSuccess).calls =
        []) ∧
    (maxPoolRun stdPoolOp (Tensor.mk [3, 2, 4, 4]) allSuccess).calls =
      [maxPoolCall stdPoolOp (Tensor.mk [3, 2, 4, 4])] :=
  ⟨(c7_maxpool_preconditions stdPoolOp (Tensor.mk [1, 1, 3, 4])
      allSuccess).1 (by decide),
   (c7_maxpool_preconditions stdPoolOp (Tensor.mk [3, 2, 4, 4])
      allSuccess).2 (by decide) (by decide) (by decide)⟩

/-- C8: with the process-wide static pointer threaded explicitly, a call
to nnpack_threadpool on an empty pointer initializes the library (failing
with an enforcement error when initialization does not succeed) and
creates exactly one pool sized to the configured thread count, storing
it; a call on a populated pointer returns that same pool, runs neither
initialization nor creation, and leaves the pointer unchanged (so a pool
is never destroyed or replaced). -/
theorem c8_threadpool_singleton (p : PThreadPool)
    (initStatus : nnp_status) (threads freshId : Nat) :
    (nnpack_threadpool (some p) initStatus threads freshId =
      Except.ok { pool := p, state := some p,
                  didInit := false, didCreate := false }) ∧
    (initStatus = nnp_status.success →
      nnpack_threadpool none initStatus threads freshId =
        Except.ok { pool := { id := freshId, threads := threads },
                    state := some { id := freshId, threads := threads },
                    didInit := true, didCreate := true }) ∧
    (initStatus ≠ nnp_status.success →
      exceptFailed (nnpack_threadpool none initStatus threads freshId) =
        true) := by
  refine ⟨rfl, ?_, ?_⟩
  · intro h
    subst h
    rfl
  · intro h
    simp [nnpack_threadpool, h, exceptFailed]

/-- Witness for C8: a first call on a 4-thread host creates the pool, a
second call returns it untouched, and a failing initialization is an
error. -/
theorem c8_threadpool_singleton_witness :
    (nnpack_threadpool none nnp_status.success 4 0 =
      Except.ok { pool := { id := 0, threads := 4 },
                  state := some { id := 0, threads := 4 },
                  didInit := true, didCreate := true }) ∧
    (nnpack_threadpool (some { id := 0, threads := 4 })
        nnp_status.success 4 1 =
      Except.ok { pool := { id := 0, threads := 4 },
                  state := some { id := 0, threads := 4 },
                  didInit := false, didCreate := false }) ∧
    exceptFailed
      (nnpack_threadpool none nnp_status.failure 4 0) = true :=
  ⟨(c8_threadpool_singleton { id := 0, threads := 4 }
      nnp_status.success 4 0).2.1 rfl,
   (c8_threadpool_singleton { id := 0, threads := 4 }
      nnp_status.success 4 1).1,
   (c8_threadpool_singleton { id := 0, threads := 4 }
      nnp_status.failure 4 0).2.2 (by decide)⟩

/-- C9 (refuting evaluation): a batch-2 convolution with stride 2 passes
the shape checks, so SetOutputSize (line 106) resizes the output tensor
before the batch/stride checks of lines 107-111 reject the call; the
failing call therefore leaves the output tensor resized, contradicting
the claim that no precondition failure ever modifies the output. -/
theorem c9_stride_failure_resizes_output :
    exceptFailed (convRun { stdConvOp with stride_h_ := 2, stride_w_ := 2 }
      (Tensor.mk [2, 1, 6, 6]) (Tensor.mk [1, 1, 2, 2]) (Tensor.mk [1])
      allSuccess).result = true ∧
    (convRun { stdConvOp with stride_h_ := 2, stride_w_ := 2 }
      (Tensor.mk [2, 1, 6, 6]) (Tensor.mk [1, 1, 2, 2]) (Tensor.mk [1])
      allSuccess).calls = [] ∧
    (convRun { stdConvOp with stride_h_ := 2, stride_w_ := 2 }
      (Tensor.mk [2, 1, 6, 6]) (Tensor.mk [1, 1, 2, 2]) (Tensor.mk [1])
      allSuccess).Ydims = some [2, 1, 3, 3] ∧
    (convRun { stdConvOp with stride_h_ := 2, stride_w_ := 2 }
      (Tensor.mk [2, 1, 6, 6]) (Tensor.mk [1, 1, 2, 2]) (Tensor.mk [1])
      allSuccess).Ydims ≠ none := by
  refine ⟨rfl, rfl, rfl, by decide⟩

/-- C9 as amended: every rank/shape/dimension precondition failure of the
convolution validator (lines 97-105) and every pooling precondition
failure leaves the output untouched and makes no kernel call; the one
exception is the batch/stride check of lines 107-111, which runs after
SetOutputSize, so that failing call has already resized the output
(still with no kernel call and no write). -/
theorem c9_atomicity_amended (op : NNPACKConvOp) (pop : NNPACKMaxPoolOp)
    (X Xp filter bias : Tensor) (status pstatus : KernelCall → nnp_status) :
    (X.ndim ≠ 4 ∨ ¬ convShapeChecks op X filter bias →
      (convRun op X filter bias status).Ydims = none ∧
      (convRun op X filter bias status).calls = [] ∧
      exceptFailed (convRun op X filter bias status).result = true) ∧
    (X.ndim = 4 → convShapeChecks op X filter bias →
      convStrideViolation op X →
      (convRun op X filter bias status).Ydims =
        some (SetOutputSize op.toConvPoolGeom X (filter.dim32 0)).dims ∧
      (convRun op X filter bias status).calls = [] ∧
      exceptFailed (convRun op X filter bias status).result = true) ∧
    (Xp.ndim ≠ 4 ∨ Xp.dim32 2 % 2 ≠ 0 ∨ Xp.dim32 3 % 2 ≠ 0 →
      (maxPoolRun pop Xp pstatus).Ydims = none ∧
      (maxPoolRun pop Xp pstatus).calls = [] ∧
      exceptFailed (maxPoolRun pop Xp pstatus).result = true) := by
  refine ⟨?_, ?_, ?_⟩
  · intro h
    unfold convRun
    split_ifs <;> simp_all [exceptFailed]
  · intro h1 h2 h3
    unfold convRun
    rw [if_pos h1, if_pos h2, if_pos h3]
    exact ⟨rfl, rfl, rfl⟩
  · intro h
    unfold maxPoolRun
    split_ifs <;> simp_all [exceptFailed]

/-- Witness for C9 as amended: a rank-3 convolution input and an
odd-height pooling input leave the output untouched, while a batch-2
stride-2 convolution fails with the output already resized. -/
theorem c9_atomicity_amended_witness :
    ((convRun stdConvOp (Tensor.mk [1, 4, 4]) (Tensor.mk [1, 1, 2, 2])
        (Tensor.mk [1]) allSuccess).Ydims = none ∧
      (convRun stdConvOp (Tensor.mk [1, 4, 4]) (Tensor.mk [1, 1, 2, 2])
        (Tensor.mk [1]) allSuccess).calls = [] ∧
      exceptFailed (convRun stdConvOp (Tensor.mk [1, 4, 4])
        (Tensor.mk [1, 1, 2, 2]) (Tensor.mk [1]) allSuccess).result =
          true) ∧
    ((convRun { stdConvOp with stride_h_ := 2, stride_w_ := 2 }
        (Tensor.mk [2, 1, 6, 6]) (Tensor.mk [1, 1, 2, 2]) (Tensor.mk [1])
        allSuccess).Ydims =
      some (SetOutputSize
        { stdConvOp with stride_h_ := 2, stride_w_ := 2 }.toConvPoolGeom
        (Tensor.mk [2, 1, 6, 6]) ((Tensor.mk [1, 1, 2, 2]).dim32 0)).dims ∧
      (convRun { stdConvOp with stride_h_ := 2, stride_w_ := 2 }
        (Tensor.mk [2, 1, 6, 6]) (Tensor.mk [1, 1, 2, 2]) (Tensor.mk [1])
        allSuccess).calls = [] ∧
      exceptFailed (convRun
        { stdConvOp with stride_h_ := 2, stride_w_ := 2 }
        (Tensor.mk [2, 1, 6, 6]) (Tensor.mk [1, 1, 2, 2]) (Tensor.mk [1])
        allSuccess).result = true) ∧
    ((maxPoolRun stdPoolOp (Tensor.mk [1, 1, 3, 4]) allSuccess).Ydims =
        none ∧
      (maxPoolRun stdPoolOp (Tensor.mk [1, 1, 3, 4]) allSuccess).calls =
        [] ∧
      exceptFailed (maxPoolRun stdPoolOp (Tensor.mk [1, 1, 3, 4])
        allSuccess).result = true) :=
  ⟨(c9_atomicity_amended stdConvOp stdPoolOp (Tensor.mk [1, 4, 4])
      (Tensor.mk [1, 1, 3, 4]) (Tensor.mk [1, 1, 2, 2]) (Tensor.mk [1])
      allSuccess allSuccess).1 (by decide),
   (c9_atomicity_amended { stdConvOp with stride_h_ := 2, stride_w_ := 2 }
      stdPoolOp (Tensor.mk [2, 1, 6, 6]) (Tensor.mk [1, 1, 3, 4])
      (Tensor.mk [1, 1, 2, 2]) (Tensor.mk [1]) allSuccess
      allSuccess).2.1 (by decide) (by decide) (by decide),
   (c9_atomicity_amended stdConvOp stdPoolOp (Tensor.mk [1, 4, 4])
      (Tensor.mk [1, 1, 3, 4]) (Tensor.mk [1, 1, 2, 2]) (Tensor.mk [1])
      allSuccess allSuccess).2.2 (by decide)⟩

/-- C10: on every validated invocation the operator itself resizes the
output before the kernel call: the convolution output is resized to batch
= input dim 0, channels = filter dim 0, and spatial dimensions given by
the standard arithmetic over kernel/stride/pad (SetOutputSize, modelled
from the spec), and the pooling output likewise with channels = input
dim 1; a kernel call is then made, so the caller never pre-sizes the
output. -/
theorem c10_operator_sizes_output (op : NNPACKConvOp)
    (pop : NNPACKMaxPoolOp) (X Xp filter bias : Tensor)
    (status pstatus : KernelCall → nnp_status)
    (hc : convValid op X filter bias)
    (h1 : Xp.ndim = 4) (h2 : Xp.dim32 2 % 2 = 0) (h3 : Xp.dim32 3 % 2 = 0) :
    ((convRun op X filter bias status).Ydims =
      some [X.dim32 0, filter.dim32 0,
            (X.dim32 2 + op.pad_t_ + op.pad_b_ - op.kernel_h_) /
              op.stride_h_ + 1,
            (X.dim32 3 + op.pad_l_ + op.pad_r_ - op.kernel_w_) /
              op.stride_w_ + 1] ∧
      (convRun op X filter bias status).calls ≠ []) ∧
    ((maxPoolRun pop Xp pstatus).Ydims =
      some [Xp.dim32 0, Xp.dim32 1,
            (Xp.dim32 2 + pop.pad_t_ + pop.pad_b_ - pop.kernel_h_) /
              pop.stride_h_ + 1,
            (Xp.dim32 3 + pop.pad_l_ + pop.pad_r_ - pop.kernel_w_) /
              pop.stride_w_ + 1] ∧
      (maxPoolRun pop Xp pstatus).calls ≠ []) := by
  obtain ⟨hv1, hv2, hv3⟩ := hc
  constructor
  · unfold convRun
    rw [if_pos hv1, if_pos hv2, if_neg hv3]
    by_cases hb : X.dim32 0 = 1 <;> simp [hb, SetOutputSize]
  · unfold maxPoolRun
    rw [if_pos h1, if_pos h2, if_pos h3]
    simp [SetOutputSize]

/-- Witness for C10 at a batch-1 convolution (4x4 input, 2x2 kernel,
stride 1: output 3x3) and a batch-3 pooling (4x4 input: output 2x2). -/
theorem c10_operator_sizes_output_witness :
    ((convRun stdConvOp (Tensor.mk [1, 2, 4, 4]) (Tensor.mk [5, 2, 2, 2])
        (Tensor.mk [5]) allSuccess).Ydims = some [1, 5, 3, 3] ∧
      (convRun stdConvOp (Tensor.mk [1, 2, 4, 4]) (Tensor.mk [5, 2, 2, 2])
        (Tensor.mk [5]) allSuccess).calls ≠ []) ∧
    ((maxPoolRun stdPoolOp (Tensor.mk [3, 2, 4, 4]) allSuccess).Ydims =
        some [3, 2, 2, 2] ∧
      (maxPoolRun stdPoolOp (Tensor.mk [3, 2, 4, 4]) allSuccess).calls ≠
        []) :=
  c10_operator_sizes_output stdConvOp stdPoolOp (Tensor.mk [1, 2, 4, 4])
    (Tensor.mk [3, 2, 4, 4]) (Tensor.mk [5, 2, 2, 2]) (Tensor.mk [5])
    allSuccess allSuccess (by decide) (by decide) (by decide) (by decide)

end Caffe2
